import Mathlib

/-!
Verification of the microservices-lab GraphQL gateway and order service.

The development shallowly embeds the Python sources:
  * `src/graphql-gateway/app.py` — the strawberry GraphQL gateway: entity
    adapters (the inline `Product(...)` / `Order(...)` constructions),
    resolvers (`Query.product`, `Query.products`, `Query.order`,
    `Query.user_orders`, `Query.user`, `User.orders`, `OrderItem.product`,
    `Mutation.create_order`).
  * `src/order-service/app.py` and `src/order-service/models.py` — the
    order service's `create_order` endpoint, its `calculate_total` helper
    and the pydantic `OrderCreate` validation model.

Backend JSON payloads are modelled by an inductive `Json` type with
rational numerals.  Python dictionary access `d["k"]` (which raises
`KeyError` when absent) is `Json.lookup?` consumed in the `Option` monad;
`d.get("k")` is `Json.lookup?` used directly; `d.get("k", 0)` is
`(Json.lookup? d "k").getD (Json.num 0)`.

Every gateway resolver runs its HTTP calls inside a `try/except` that
swallows every exception, so in the executed GraphQL response no
error entry is ever produced by these resolvers (strawberry appends an
error entry only when a resolver raises).  The `execute…` wrappers below
therefore pair the resolved data with the (empty) error list the gateway
actually emits, and with the trace of backend HTTP calls the resolver
issued, so that call-counting (laziness / no-retry) properties can be
stated.
-/

/-- JSON values as exchanged between the gateway and the backend
services.  Numbers are rationals (Python floats in the source; the
claims under verification only involve exact arithmetic). -/
inductive Json : Type
  | null : Json
  | bool (b : Bool) : Json
  | num (q : ℚ) : Json
  | str (s : String) : Json
  | arr (elems : List Json) : Json
  | obj (fields : List (String × Json)) : Json

/-- First value bound to `key` in an association list (Python dict lookup;
dictionaries never hold duplicate keys). -/
def jsonFieldLookup : List (String × Json) → String → Option Json
  | [], _ => none
  | (k, v) :: rest, key => if k = key then some v else jsonFieldLookup rest key

/-- `d["k"]` / `d.get("k")`: `some` when `d` is an object containing the
key, `none` otherwise (a `KeyError` / `TypeError` in the Python source). -/
def Json.lookup? : Json → String → Option Json
  | .obj fields, key => jsonFieldLookup fields key
  | _, _ => none

/-- View a JSON value as an array (iterating anything else in the Python
source raises before a well-formed entity can be produced). -/
def Json.asArr? : Json → Option (List Json)
  | .arr elems => some elems
  | _ => none

/-- View a JSON value as an object's field list (pydantic's
`Dict[str, Any]` check on `shipping_address`). -/
def Json.asObj? : Json → Option (List (String × Json))
  | .obj fields => some fields
  | _ => none

/-- Outcome of one backend HTTP call as seen by the gateway: either a
status code with a parsed JSON body, or a transport failure
(connection refused / timeout — an `httpx` exception in the source). -/
inductive HttpResult : Type
  | ok (status : Nat) (body : Json) : HttpResult
  | failure : HttpResult

/-- One backend HTTP call issued by a gateway resolver.  The catalog item
lookup is keyed by the raw `product_id` value interpolated into the URL. -/
inductive Call : Type
  | getCatalogItem (id : Json) : Call
  | getCatalogList (params : List (String × Json)) : Call
  | getOrder (id : String) : Call
  | getUserOrders (userId : String) (limit : Nat) : Call
  | postOrder (body : Json) : Call

/-- The backend world: what each service would answer to each request the
gateway can issue.  Resolvers consult it instead of the network. -/
structure World : Type where
  catalog : Json → HttpResult
  catalogSearch : List (String × Json) → HttpResult
  orderById : String → HttpResult
  ordersByUser : String → Nat → HttpResult
  postOrder : Json → HttpResult

/-- One entry of the GraphQL response's `errors` list. -/
structure GqlError : Type where
  path : List String
  message : String
  deriving DecidableEq

/-- A GraphQL execution result: the `data` payload together with the
`errors` list strawberry would attach. -/
structure GqlResult (α : Type) : Type where
  data : α
  errors : List GqlError

/-! ## Gateway entity adapters (`src/graphql-gateway/app.py`)

The strawberry types hold whatever values the backend JSON carried —
the Python constructors perform no type checking — so the embedded
entities store raw `Json` field values.  Required keys are accessed with
`d["k"]` (failure propagates as `Option.none`, matching the enclosing
`except Exception` handler), optional keys with `d.get(...)`. -/

/-- The gateway's `Product` graph entity. -/
structure GProduct : Type where
  id : Json
  name : Json
  description : Option Json
  price : Json
  category : Json
  stock : Json
  imageUrl : Option Json
  createdAt : Json
  updatedAt : Json

/-- The inline `Product(...)` construction shared by `OrderItem.product`,
`Query.product` and `Query.products`: required keys via `data["k"]`,
`description` / `image_url` via `data.get(...)`, and
`stock` via `data.get("stock", 0)`. -/
def productOfJson (data : Json) : Option GProduct := do
  let id ← data.lookup? "id"
  let name ← data.lookup? "name"
  let description := data.lookup? "description"
  let price ← data.lookup? "price"
  let category ← data.lookup? "category"
  let stock := (data.lookup? "stock").getD (Json.num 0)
  let imageUrl := data.lookup? "image_url"
  let createdAt ← data.lookup? "created_at"
  let updatedAt ← data.lookup? "updated_at"
  pure ⟨id, name, description, price, category, stock, imageUrl, createdAt, updatedAt⟩

/-- The gateway's `OrderItem` graph entity (scalar part; the nested
`product` field is a resolver, not stored state). -/
structure GOrderItem : Type where
  productId : Json
  quantity : Json
  price : Json
  name : Json

/-- The inline `OrderItem(...)` construction shared by `User.orders`,
`Query.user_orders`, `Query.order` and `Mutation.create_order`. -/
def orderItemOfJson (item : Json) : Option GOrderItem := do
  let productId ← item.lookup? "product_id"
  let quantity ← item.lookup? "quantity"
  let price ← item.lookup? "price"
  let name ← item.lookup? "name"
  pure ⟨productId, quantity, price, name⟩

/-- The gateway's `Order` graph entity. -/
structure GOrder : Type where
  id : Json
  userId : Json
  items : List GOrderItem
  totalAmount : Json
  status : Json
  paymentStatus : Json
  shippingAddress : Json
  paymentMethod : Json
  trackingNumber : Option Json
  notes : Option Json
  createdAt : Json
  updatedAt : Json

/-- The inline `Order(...)` construction shared by `User.orders`,
`Query.user_orders`, `Query.order` and `Mutation.create_order`: the
item list is built first, then every scalar is passed through from the
backend payload unchanged (`tracking_number` / `notes` via `.get`). -/
def orderOfJson (orderData : Json) : Option GOrder := do
  let itemsJson ← orderData.lookup? "items"
  let itemArr ← itemsJson.asArr?
  let items ← itemArr.mapM orderItemOfJson
  let id ← orderData.lookup? "id"
  let userId ← orderData.lookup? "user_id"
  let totalAmount ← orderData.lookup? "total_amount"
  let status ← orderData.lookup? "status"
  let paymentStatus ← orderData.lookup? "payment_status"
  let shippingAddress ← orderData.lookup? "shipping_address"
  let paymentMethod ← orderData.lookup? "payment_method"
  let trackingNumber := orderData.lookup? "tracking_number"
  let notes := orderData.lookup? "notes"
  let createdAt ← orderData.lookup? "created_at"
  let updatedAt ← orderData.lookup? "updated_at"
  pure ⟨id, userId, items, totalAmount, status, paymentStatus, shippingAddress,
        paymentMethod, trackingNumber, notes, createdAt, updatedAt⟩

/-- The gateway's `User` graph entity (scalar part). -/
structure GUser : Type where
  id : String
  username : String
  email : String
  fullName : Option String
  createdAt : String
  updatedAt : String
  deriving DecidableEq

/-! ## Gateway resolver layer (`src/graphql-gateway/app.py`)

Each resolver returns its field value paired with the trace of backend
HTTP calls it issued.  The `execute…` wrappers model strawberry's
execution of one requested root field: they attach the `errors` list of
the emitted response, which is empty because these resolvers catch every
exception instead of raising (strawberry records an error entry only for
a raised exception). -/

/-- `OrderItem.product` / body of `Query.product`: one catalog GET for
the given id; a `Product` only on status 200 with a well-formed body,
`None` on any other status, transport failure or malformed body. -/
def resolveProduct (w : World) (pid : Json) : Option GProduct × List Call :=
  match w.catalog pid with
  | .failure => (none, [.getCatalogItem pid])
  | .ok status body =>
      (if status = 200 then productOfJson body else none, [.getCatalogItem pid])

/-- Strawberry execution of the root query `product(id:)`. -/
def executeProductQuery (w : World) (id : String) :
    GqlResult (Option GProduct) × List Call :=
  let r := resolveProduct w (.str id)
  (⟨r.1, []⟩, r.2)

/-- Strawberry execution of the root query `order(id:)`.
`productRequested` records whether the query document selected the
`items { product }` sub-field: strawberry invokes the
`OrderItem.product` resolver (one catalog call per item) only in that
case; with only scalar fields selected no nested resolver runs.  The
second component of the data pairs the order with the per-item product
resolutions when they were requested. -/
def executeOrderQuery (w : World) (id : String) (productRequested : Bool) :
    GqlResult (Option (GOrder × Option (List (Option GProduct)))) × List Call :=
  match w.orderById id with
  | .failure => (⟨none, []⟩, [.getOrder id])
  | .ok status body =>
      if status = 200 then
        match orderOfJson body with
        | none => (⟨none, []⟩, [.getOrder id])
        | some o =>
            if productRequested then
              let rs := o.items.map (fun it => resolveProduct w it.productId)
              (⟨some (o, some (rs.map Prod.fst)), []⟩,
                .getOrder id :: (rs.map Prod.snd).flatten)
            else (⟨some (o, none), []⟩, [.getOrder id])
      else (⟨none, []⟩, [.getOrder id])

/-- `Query.user`: builds a stub user locally — the identity service is
never contacted (the opened HTTP client issues no request) and the body
of the `try` cannot raise, so the `return None` branch is dead code.
`now` stands for `datetime.utcnow().isoformat()`. -/
def resolveUser (now : String) (id : String) : Option GUser × List Call :=
  (some ⟨id, "user_" ++ id, "user" ++ id ++ "@example.com",
         some "Test User", now, now⟩, [])

/-- Parse the order-service `{orders: [...]}` payload as the gateway
does; a failure anywhere discards the whole list (the `except` handler). -/
def parseOrdersPayload (body : Json) : Option (List GOrder) := do
  let ordersJson ← body.lookup? "orders"
  let arr ← ordersJson.asArr?
  arr.mapM orderOfJson

/-- Shared body of `User.orders` (limit 100) and `Query.user_orders`
(limit 50): one GET to the order service; the parsed list on status 200,
`[]` on any failure, non-200 status or malformed payload. -/
def resolveUserOrders (w : World) (userId : String) (limit : Nat) :
    List GOrder × List Call :=
  match w.ordersByUser userId limit with
  | .failure => ([], [.getUserOrders userId limit])
  | .ok status body =>
      (if status = 200 then (parseOrdersPayload body).getD [] else [],
       [.getUserOrders userId limit])

/-- Strawberry execution of the root query `userOrders(userId:)`. -/
def executeUserOrdersQuery (w : World) (userId : String) :
    GqlResult (List GOrder) × List Call :=
  let r := resolveUserOrders w userId 50
  (⟨r.1, []⟩, r.2)

/-- The query-parameter dictionary `Query.products` sends to the catalog
search endpoint: `page`, `page_size`, then each optional filter only
when it is not `None`. -/
def buildProductParams (category : Option String) (minPrice maxPrice : Option ℚ)
    (search : Option String) (limit : Nat) : List (String × Json) :=
  [("page", Json.num 1), ("page_size", Json.num limit)]
    ++ (match category with | some c => [("category", Json.str c)] | none => [])
    ++ (match minPrice with | some p => [("min_price", Json.num p)] | none => [])
    ++ (match maxPrice with | some p => [("max_price", Json.num p)] | none => [])
    ++ (match search with | some s => [("search", Json.str s)] | none => [])

/-- Parse the catalog `{items: [...]}` payload as `Query.products` does. -/
def parseProductsPayload (body : Json) : Option (List GProduct) := do
  let itemsJson ← body.lookup? "items"
  let arr ← itemsJson.asArr?
  arr.mapM productOfJson

/-- `Query.products`: one catalog search GET; the parsed product list on
status 200, `[]` on any failure, non-200 status or malformed payload. -/
def resolveProducts (w : World) (params : List (String × Json)) :
    List GProduct × List Call :=
  match w.catalogSearch params with
  | .failure => ([], [.getCatalogList params])
  | .ok status body =>
      (if status = 200 then (parseProductsPayload body).getD [] else [],
       [.getCatalogList params])

/-- Strawberry execution of the root query `products(...)`. -/
def executeProductsQuery (w : World) (params : List (String × Json)) :
    GqlResult (List GProduct) × List Call :=
  let r := resolveProducts w params
  (⟨r.1, []⟩, r.2)

/-- The JSON body `Mutation.create_order` POSTs to the order service:
the caller's `user_id`, `items` and `shipping_address` plus a hardcoded
`payment_method` of `"card"` — the mutation has no payment-method
parameter. -/
def buildOrderPayload (userId : String) (items : List Json)
    (shippingAddress : Json) : Json :=
  .obj [("user_id", .str userId), ("items", .arr items),
        ("shipping_address", shippingAddress),
        ("payment_method", .str "card")]

/-- `Mutation.create_order`: exactly one POST to the order service; the
parsed created order on status 201, `None` on any failure or other
status.  No input validation happens before the call and no retry after
it. -/
def resolveCreateOrder (w : World) (userId : String) (items : List Json)
    (shippingAddress : Json) : Option GOrder × List Call :=
  let body := buildOrderPayload userId items shippingAddress
  match w.postOrder body with
  | .failure => (none, [.postOrder body])
  | .ok status rbody =>
      (if status = 201 then orderOfJson rbody else none, [.postOrder body])

/-- Strawberry execution of the root mutation `createOrder(...)`. -/
def executeCreateOrderMutation (w : World) (userId : String)
    (items : List Json) (shippingAddress : Json) :
    GqlResult (Option GOrder) × List Call :=
  let r := resolveCreateOrder w userId items shippingAddress
  (⟨r.1, []⟩, r.2)

/-! ## Order service (`src/order-service/app.py`, `models.py`)

The order service validates its request body with pydantic
(`OrderCreate`: `items` with `min_items=1`, `quantity` a positive
integer, `price` a positive number, `payment_method` defaulting to
`"card"`), then `create_order` stores and returns a new order dict with
`total_amount = calculate_total(items)` and both statuses `"pending"`. -/

/-- The pydantic `OrderItem` model of the order service (validated:
`quantity` an `int`, `price` a number; positivity is checked by the
parser below). -/
structure OItem : Type where
  productId : String
  quantity : ℤ
  price : ℚ
  name : String

/-- The pydantic `OrderCreate` request model. -/
structure OrderCreate : Type where
  userId : String
  items : List OItem
  shippingAddress : Json
  paymentMethod : String

/-- An order dict as stored in `orders_db` and returned by the service. -/
structure StoredOrder : Type where
  id : String
  userId : String
  items : List OItem
  totalAmount : ℚ
  status : String
  paymentStatus : String
  shippingAddress : Json
  paymentMethod : String
  trackingNumber : Option String
  notes : Option String
  createdAt : String
  updatedAt : String

/-- `calculate_total`: `sum(item["price"] * item["quantity"] for item in items)`. -/
def calculate_total (items : List OItem) : ℚ :=
  (items.map (fun item => item.price * (item.quantity : ℚ))).sum

/-- The body of the `POST /api/v1/orders` handler `create_order`, after
validation: `order_id` and `current_time` stand for the generated
`generate_order_id()` / `get_current_time()` values. -/
def create_order (orderId currentTime : String) (orderData : OrderCreate) :
    StoredOrder :=
  { id := orderId
    userId := orderData.userId
    items := orderData.items
    totalAmount := calculate_total orderData.items
    status := "pending"
    paymentStatus := "pending"
    shippingAddress := orderData.shippingAddress
    paymentMethod := orderData.paymentMethod
    trackingNumber := none
    notes := none
    createdAt := currentTime
    updatedAt := currentTime }

/-- Pydantic validation of one `OrderItem` JSON object: `product_id` and
`name` strings, `quantity` a positive integer, `price` a positive
number. -/
def parseOItem (j : Json) : Option OItem := do
  let productId ← j.lookup? "product_id"
  let quantity ← j.lookup? "quantity"
  let price ← j.lookup? "price"
  let name ← j.lookup? "name"
  match productId, quantity, price, name with
  | .str pid, .num q, .num p, .str nm =>
      if q.den = 1 ∧ 0 < q ∧ 0 < p then
        some ⟨pid, q.num, p, nm⟩
      else none
  | _, _, _, _ => none

/-- Pydantic validation of the `OrderCreate` request body: `user_id` a
string, `items` a non-empty array of valid items (`min_items=1`),
`shipping_address` an object, `payment_method` a string defaulting to
`"card"` when absent. -/
def parseOrderCreate (j : Json) : Option OrderCreate := do
  let userIdJson ← j.lookup? "user_id"
  let userId ← match userIdJson with | .str s => some s | _ => none
  let itemsJson ← j.lookup? "items"
  let itemArr ← itemsJson.asArr?
  let items ← itemArr.mapM parseOItem
  if items.isEmpty then none else do
  let shippingAddress ← j.lookup? "shipping_address"
  let _ ← shippingAddress.asObj?
  let paymentMethod ← match j.lookup? "payment_method" with
    | some (.str s) => some s
    | none => some "card"
    | some _ => none
  pure ⟨userId, items, shippingAddress, paymentMethod⟩

/-- Serialize one stored item back to JSON (FastAPI response encoding). -/
def oItemToJson (i : OItem) : Json :=
  .obj [("product_id", .str i.productId), ("quantity", .num i.quantity),
        ("price", .num i.price), ("name", .str i.name)]

/-- Serialize a stored order back to JSON (FastAPI response encoding of
`OrderResponse`). -/
def storedOrderToJson (o : StoredOrder) : Json :=
  .obj [("id", .str o.id), ("user_id", .str o.userId),
        ("items", .arr (o.items.map oItemToJson)),
        ("total_amount", .num o.totalAmount),
        ("status", .str o.status), ("payment_status", .str o.paymentStatus),
        ("shipping_address", o.shippingAddress),
        ("payment_method", .str o.paymentMethod),
        ("tracking_number", match o.trackingNumber with
          | some t => .str t | none => .null),
        ("notes", match o.notes with | some n => .str n | none => .null),
        ("created_at", .str o.createdAt), ("updated_at", .str o.updatedAt)]

/-- The order service's `POST /api/v1/orders` endpoint as one function:
pydantic validation failure yields a 422 response (body abstracted to
null), success yields 201 with the serialized created order. -/
def orderServicePost (orderId currentTime : String) (body : Json) : Nat × Json :=
  match parseOrderCreate body with
  | none => (422, Json.null)
  | some orderData => (201, storedOrderToJson (create_order orderId currentTime orderData))

/-- A backend world whose order service runs the real (embedded)
`create_order` endpoint; every other service is unreachable. -/
def worldWithOrderService (orderId currentTime : String) : World :=
  { catalog := fun _ => .failure
    catalogSearch := fun _ => .failure
    orderById := fun _ => .failure
    ordersByUser := fun _ _ => .failure
    postOrder := fun b =>
      let r := orderServicePost orderId currentTime b
      .ok r.1 r.2 }

/-! ## Concrete payloads and worlds used in closed evaluations -/

/-- A well-formed catalog item payload. -/
def sampleProductJson : Json :=
  .obj [("id", .str "p1"), ("name", .str "Widget"),
        ("description", .str "A widget"), ("price", .num 5),
        ("category", .str "tools"), ("stock", .num 7),
        ("image_url", .str "http://img/p1"),
        ("created_at", .str "t1"), ("updated_at", .str "t2")]

/-- The entity `productOfJson` builds from `sampleProductJson`. -/
def sampleProduct : GProduct :=
  ⟨.str "p1", .str "Widget", some (.str "A widget"), .num 5, .str "tools",
   .num 7, some (.str "http://img/p1"), .str "t1", .str "t2"⟩

/-- A catalog item payload with every required key present but the
`stock`, `description` and `image_url` keys missing. -/
def productPayloadNoStock : Json :=
  .obj [("id", .str "p1"), ("name", .str "Widget"), ("price", .num 5),
        ("category", .str "tools"),
        ("created_at", .str "t1"), ("updated_at", .str "t2")]

/-- The entity `productOfJson` builds from `productPayloadNoStock`:
`stock` silently defaulted to 0, the absent optionals absent. -/
def productNoStockEntity : GProduct :=
  ⟨.str "p1", .str "Widget", none, .num 5, .str "tools", .num 0, none,
   .str "t1", .str "t2"⟩

/-- A catalog item payload with every required key present but with
type-mismatched values: a numeric `id`, a string `price` and a string
`stock`. -/
def productPayloadMismatch : Json :=
  .obj [("id", .num 7), ("name", .str "Widget"), ("price", .str "five"),
        ("category", .str "tools"), ("stock", .str "many"),
        ("created_at", .str "t1"), ("updated_at", .str "t2")]

/-- The entity `productOfJson` builds from `productPayloadMismatch`: the
mismatched values are stored raw — the Python constructor does not
check them, and the adapter neither coerces nor errors. -/
def productMismatchEntity : GProduct :=
  ⟨.num 7, .str "Widget", none, .str "five", .str "tools", .str "many",
   none, .str "t1", .str "t2"⟩

/-- The catalog answers status 200 for every id, with the
type-mismatched payload for id `"mismatch"` and a payload missing every
required key but `name` for every other id; other backends are
unreachable. -/
def worldMalformed : World :=
  { catalog := fun pid =>
      match pid with
      | .str s =>
          if s = "mismatch" then .ok 200 productPayloadMismatch
          else .ok 200 (.obj [("name", .str "Widget")])
      | _ => .ok 200 (.obj [("name", .str "Widget")])
    catalogSearch := fun _ => .failure
    orderById := fun _ => .failure
    ordersByUser := fun _ _ => .failure
    postOrder := fun _ => .failure }

/-- A well-formed order payload with two items (`p1`, `p2`). -/
def sampleOrderJson : Json :=
  .obj [("id", .str "ORD-1"), ("user_id", .str "u1"),
        ("items", .arr
          [.obj [("product_id", .str "p1"), ("quantity", .num 2),
                 ("price", .num 5), ("name", .str "Widget")],
           .obj [("product_id", .str "p2"), ("quantity", .num 1),
                 ("price", .num 3), ("name", .str "Gadget")]]),
        ("total_amount", .num 13), ("status", .str "pending"),
        ("payment_status", .str "pending"),
        ("shipping_address", .obj [("street", .str "Main 1"),
                                   ("city", .str "Town"),
                                   ("country", .str "Land")]),
        ("payment_method", .str "card"),
        ("tracking_number", .null), ("notes", .null),
        ("created_at", .str "t1"), ("updated_at", .str "t2")]

/-- The entity `orderOfJson` builds from `sampleOrderJson`. -/
def sampleGOrder : GOrder :=
  ⟨.str "ORD-1", .str "u1",
   [⟨.str "p1", .num 2, .num 5, .str "Widget"⟩,
    ⟨.str "p2", .num 1, .num 3, .str "Gadget"⟩],
   .num 13, .str "pending", .str "pending",
   .obj [("street", .str "Main 1"), ("city", .str "Town"),
         ("country", .str "Land")],
   .str "card", some .null, some .null, .str "t1", .str "t2"⟩

/-- Every backend service is unreachable. -/
def worldDown : World :=
  { catalog := fun _ => .failure
    catalogSearch := fun _ => .failure
    orderById := fun _ => .failure
    ordersByUser := fun _ _ => .failure
    postOrder := fun _ => .failure }

/-- The catalog answers 404 for every item id; other backends are
unreachable. -/
def world404 : World :=
  { catalog := fun _ => .ok 404 .null
    catalogSearch := fun _ => .failure
    orderById := fun _ => .failure
    ordersByUser := fun _ _ => .failure
    postOrder := fun _ => .failure }

/-- Order lookups answer `sampleOrderJson`; the catalog has item `p1`
but answers 404 for every other id (so `p2` is missing). -/
def worldMixed : World :=
  { catalog := fun pid =>
      match pid with
      | .str s => if s = "p1" then .ok 200 sampleProductJson else .ok 404 .null
      | _ => .ok 404 .null
    catalogSearch := fun _ => .failure
    orderById := fun _ => .ok 200 sampleOrderJson
    ordersByUser := fun _ _ => .ok 200 (.obj [("orders", .arr [sampleOrderJson]),
                                              ("total", .num 1),
                                              ("user_id", .str "u1")])
    postOrder := fun _ => .failure }

/-- Modelled from the spec (§4.5 contract, claim C6): the write payload
the spec says the mutation forwards — the caller's user id, items,
shipping address *and payment method tag*.  Stated only to be compared
with the source's `buildOrderPayload`, which has no payment-method
input. -/
def specOrderPayload (userId : String) (items : List Json)
    (shippingAddress : Json) (paymentMethod : String) : Json :=
  .obj [("user_id", .str userId), ("items", .arr items),
        ("shipping_address", shippingAddress),
        ("payment_method", .str paymentMethod)]

/-! ## Helper lemmas shared across claims -/

/-- A product resolution issues exactly one catalog call, whatever the
catalog answers. -/
theorem resolveProduct_calls (w : World) (pid : Json) :
    (resolveProduct w pid).2 = [Call.getCatalogItem pid] := by
  cases h : w.catalog pid <;> simp [resolveProduct, h]

/-- Flattening a list of singletons is a map. -/
theorem map_singleton_flatten {α β : Type} (f : α → β) (l : List α) :
    (l.map (fun a => [f a])).flatten = l.map f := by
  induction l with
  | nil => rfl
  | cons a t ih => simp [ih]

/-! ## Claims -/

/-- Claim C9: for every id, the top-level `user(id)` query issues zero
backend calls and returns a non-null `User` whose username is
`"user_"` followed by the id and whose email is
`"user" + id + "@example.com"`; it never returns null and never
contacts the identity service. -/
theorem c9_user_stub_no_backend (now id : String) :
    resolveUser now id
      = (some ⟨id, "user_" ++ id, "user" ++ id ++ "@example.com",
               some "Test User", now, now⟩, []) := rfl

/-- Claim C7: for every order-creation request accepted by the order
service, the created order's `total_amount` equals the sum over its
items of unit price × quantity, its initial `status` is `"pending"` and
its initial `payment_status` is `"pending"`. -/
theorem c7_create_order_total_and_status (orderId currentTime : String)
    (orderData : OrderCreate) (h : orderData.items ≠ []) :
    (create_order orderId currentTime orderData).totalAmount
        = (orderData.items.map (fun item => item.price * (item.quantity : ℚ))).sum
    ∧ (create_order orderId currentTime orderData).status = "pending"
    ∧ (create_order orderId currentTime orderData).paymentStatus = "pending" :=
  ⟨rfl, rfl, rfl⟩

/-- Closed instance of `c7_create_order_total_and_status` on a one-item
order (quantity 2 at unit price 5). -/
theorem c7_create_order_total_and_status_witness :
    ([⟨"p1", 2, 5, "Widget"⟩] : List OItem) ≠ []
    ∧ ((create_order "ORD-1" "t0"
          ⟨"u1", [⟨"p1", 2, 5, "Widget"⟩], .obj [], "card"⟩).totalAmount
          = (([⟨"p1", 2, 5, "Widget"⟩] : List OItem).map
              (fun item => item.price * (item.quantity : ℚ))).sum
       ∧ (create_order "ORD-1" "t0"
            ⟨"u1", [⟨"p1", 2, 5, "Widget"⟩], .obj [], "card"⟩).status = "pending"
       ∧ (create_order "ORD-1" "t0"
            ⟨"u1", [⟨"p1", 2, 5, "Widget"⟩], .obj [], "card"⟩).paymentStatus
            = "pending") :=
  ⟨by simp,
   c7_create_order_total_and_status "ORD-1" "t0"
     ⟨"u1", [⟨"p1", 2, 5, "Widget"⟩], .obj [], "card"⟩ (by simp)⟩

/-- Claim C5: round-trip — an `Order` entity the gateway constructs from
a backend payload carries exactly the payload's `total_amount`, `status`
and `payment_status` values: the adapter passes them through unchanged,
with no recomputation or transition. -/
theorem c5_order_scalar_roundtrip (j : Json) (o : GOrder)
    (h : orderOfJson j = some o) :
    j.lookup? "total_amount" = some o.totalAmount
    ∧ j.lookup? "status" = some o.status
    ∧ j.lookup? "payment_status" = some o.paymentStatus := by
  simp only [orderOfJson, Option.bind_eq_bind, Option.bind_eq_some,
    Option.pure_def, Option.some.injEq] at h
  obtain ⟨itemsJson, hItems, itemArr, hArr, items, hMapM, idv, hid, uid, huid,
    ta, hta, st, hst, ps, hps, sa, hsa, pm, hpm, ca, hca, ua, hua, ho⟩ := h
  subst ho
  exact ⟨hta, hst, hps⟩

/-- Closed instance of `c5_order_scalar_roundtrip` at `sampleOrderJson`. -/
theorem c5_order_scalar_roundtrip_witness :
    orderOfJson sampleOrderJson = some sampleGOrder
    ∧ (sampleOrderJson.lookup? "total_amount" = some sampleGOrder.totalAmount
       ∧ sampleOrderJson.lookup? "status" = some sampleGOrder.status
       ∧ sampleOrderJson.lookup? "payment_status"
           = some sampleGOrder.paymentStatus) :=
  ⟨rfl, c5_order_scalar_roundtrip sampleOrderJson sampleGOrder rfl⟩

/-- Claim C2 (laziness): a query for only scalar fields of a top-level
entity costs exactly one backend call per requested entity — one
order-service GET for `order(id)` with no catalog call, one catalog GET
for `product(id)`, one order-service GET for `userOrders(userId)` — and
the nested `items { product }` catalog calls are issued only when that
sub-field is requested, one per item. -/
theorem c2_laziness :
    (∀ (w : World) (id : String),
      (executeOrderQuery w id false).2 = [Call.getOrder id])
    ∧ (∀ (w : World) (id : String),
        (executeProductQuery w id).2 = [Call.getCatalogItem (.str id)])
    ∧ (∀ (w : World) (userId : String),
        (executeUserOrdersQuery w userId).2 = [Call.getUserOrders userId 50])
    ∧ (∀ (w : World) (id : String) (body : Json) (o : GOrder),
        w.orderById id = .ok 200 body → orderOfJson body = some o →
        (executeOrderQuery w id true).2
          = Call.getOrder id
              :: o.items.map (fun it => Call.getCatalogItem it.productId)) := by
  refine ⟨?_, ?_, ?_, ?_⟩
  · intro w id
    cases h : w.orderById id with
    | failure => simp [executeOrderQuery, h]
    | ok status body =>
        by_cases hs : status = 200
        · subst hs
          cases ho : orderOfJson body <;> simp [executeOrderQuery, h, ho]
        · simp [executeOrderQuery, h, hs]
  · intro w id
    simpa [executeProductQuery] using resolveProduct_calls w (.str id)
  · intro w userId
    cases h : w.ordersByUser userId 50 <;>
      simp [executeUserOrdersQuery, resolveUserOrders, h]
  · intro w id body o hw ho
    simp only [executeOrderQuery, hw, ho, if_pos rfl, List.map_map, if_true]
    rw [show (Prod.snd ∘ fun it : GOrderItem => resolveProduct w it.productId)
          = fun it : GOrderItem => [Call.getCatalogItem it.productId]
        from funext fun it => resolveProduct_calls w it.productId,
      map_singleton_flatten]

/-- Closed instance of `c2_laziness` at `worldMixed` / `sampleOrderJson`:
the scalar-only order query costs one call, the nested query costs one
order call plus one catalog call per item. -/
theorem c2_laziness_witness :
    (executeOrderQuery worldMixed "ORD-1" false).2 = [Call.getOrder "ORD-1"]
    ∧ (executeProductQuery worldMixed "p1").2
        = [Call.getCatalogItem (.str "p1")]
    ∧ worldMixed.orderById "ORD-1" = .ok 200 sampleOrderJson
    ∧ orderOfJson sampleOrderJson = some sampleGOrder
    ∧ (executeOrderQuery worldMixed "ORD-1" true).2
        = Call.getOrder "ORD-1"
            :: sampleGOrder.items.map (fun it => Call.getCatalogItem it.productId) :=
  ⟨c2_laziness.1 worldMixed "ORD-1",
   c2_laziness.2.1 worldMixed "p1", rfl, rfl,
   c2_laziness.2.2.2 worldMixed "ORD-1" sampleOrderJson sampleGOrder rfl rfl⟩

/-- Counterexample to claim C1 at its own scenario `product(id="p1")`
with the catalog answering 404: the data is null as claimed, but the
response's errors list is empty — no error entry with path `product`
and a message is appended. -/
theorem c1_counterexample :
    (executeProductQuery world404 "p1").1.data = none
    ∧ (executeProductQuery world404 "p1").1.errors = []
    ∧ (executeProductQuery world404 "p1").1.errors.length ≠ 1 :=
  ⟨rfl, rfl, by decide⟩

/-- Claim C1 as amended: for every query in which the catalog lookup for
a product fails (404, any other non-200 status, or backend
unavailable), the product field resolves to null without aborting
sibling fields — in an `order` query each item's product is its own
independent resolution — but NO error entry is appended: the response's
errors list stays empty (the resolver swallows the failure silently). -/
theorem c1_amended_silent_product_failure :
    (∀ (w : World) (id : String),
      (w.catalog (.str id) = .failure
        ∨ ∃ s b, w.catalog (.str id) = .ok s b ∧ s ≠ 200) →
      (executeProductQuery w id).1.data = none
      ∧ (executeProductQuery w id).1.errors = [])
    ∧ (∀ (w : World) (id : String) (body : Json) (o : GOrder),
        w.orderById id = .ok 200 body → orderOfJson body = some o →
        (executeOrderQuery w id true).1.data
          = some (o, some (o.items.map
              (fun it => (resolveProduct w it.productId).1)))
        ∧ (executeOrderQuery w id true).1.errors = []) := by
  constructor
  · rintro w id (hfail | ⟨s, b, hok, hs⟩)
    · simp [executeProductQuery, resolveProduct, hfail]
    · simp [executeProductQuery, resolveProduct, hok, hs]
  · intro w id body o hw ho
    simp [executeOrderQuery, hw, ho, List.map_map, Function.comp]

/-- Closed instance of `c1_amended_silent_product_failure`: the 404
top-level lookup, and the `worldMixed` order whose item `p1` resolves
while its sibling `p2` fails — both with an empty errors list. -/
theorem c1_amended_silent_product_failure_witness :
    ((world404.catalog (.str "p1") = .failure
        ∨ ∃ s b, world404.catalog (.str "p1") = .ok s b ∧ s ≠ 200)
     ∧ (executeProductQuery world404 "p1").1.data = none
     ∧ (executeProductQuery world404 "p1").1.errors = [])
    ∧ (worldMixed.orderById "ORD-1" = .ok 200 sampleOrderJson
       ∧ orderOfJson sampleOrderJson = some sampleGOrder
       ∧ (executeOrderQuery worldMixed "ORD-1" true).1.data
           = some (sampleGOrder, some (sampleGOrder.items.map
               (fun it => (resolveProduct worldMixed it.productId).1)))
       ∧ (executeOrderQuery worldMixed "ORD-1" true).1.errors = []) := by
  have h1 : world404.catalog (.str "p1") = .failure
      ∨ ∃ s b, world404.catalog (.str "p1") = .ok s b ∧ s ≠ 200 :=
    Or.inr ⟨404, .null, rfl, by decide⟩
  have h2 := c1_amended_silent_product_failure.1 world404 "p1" h1
  have h3 := c1_amended_silent_product_failure.2 worldMixed "ORD-1"
    sampleOrderJson sampleGOrder rfl rfl
  exact ⟨⟨h1, h2.1, h2.2⟩, rfl, rfl, h3.1, h3.2⟩

/-- Counterexample to claim C4: with the order service unreachable the
`createOrder` data is null and exactly one POST was issued, but the
errors list is empty — no error entry for path `createOrder` is
recorded. -/
theorem c4_counterexample :
    (executeCreateOrderMutation worldDown "u1" [] (.obj [])).1.data = none
    ∧ (executeCreateOrderMutation worldDown "u1" [] (.obj [])).2.length = 1
    ∧ (executeCreateOrderMutation worldDown "u1" [] (.obj [])).1.errors.length ≠ 1 :=
  ⟨rfl, rfl, by decide⟩

/-- Claim C4 as amended: if the order-service write fails, times out or
returns a non-201 status, the mutation returns null, issues exactly one
POST to the order service (no automatic retry), no order is returned as
created — and NO error entry is recorded: the errors list stays
empty. -/
theorem c4_amended_write_failure (w : World) (userId : String)
    (items : List Json) (addr : Json)
    (h : w.postOrder (buildOrderPayload userId items addr) = .failure
      ∨ ∃ s b, w.postOrder (buildOrderPayload userId items addr) = .ok s b
          ∧ s ≠ 201) :
    (executeCreateOrderMutation w userId items addr).1.data = none
    ∧ (executeCreateOrderMutation w userId items addr).1.errors = []
    ∧ (executeCreateOrderMutation w userId items addr).2
        = [Call.postOrder (buildOrderPayload userId items addr)] := by
  rcases h with hfail | ⟨s, b, hok, hs⟩
  · simp [executeCreateOrderMutation, resolveCreateOrder, hfail]
  · simp [executeCreateOrderMutation, resolveCreateOrder, hok, hs]

/-- Closed instance of `c4_amended_write_failure` with the order service
unreachable. -/
theorem c4_amended_write_failure_witness :
    (worldDown.postOrder (buildOrderPayload "u1" [] (.obj [])) = .failure
      ∨ ∃ s b, worldDown.postOrder (buildOrderPayload "u1" [] (.obj []))
          = .ok s b ∧ s ≠ 201)
    ∧ ((executeCreateOrderMutation worldDown "u1" [] (.obj [])).1.data = none
       ∧ (executeCreateOrderMutation worldDown "u1" [] (.obj [])).1.errors = []
       ∧ (executeCreateOrderMutation worldDown "u1" [] (.obj [])).2
           = [Call.postOrder (buildOrderPayload "u1" [] (.obj []))]) :=
  ⟨Or.inl rfl, c4_amended_write_failure worldDown "u1" [] (.obj []) (Or.inl rfl)⟩

/-- Counterexample to claim C3: invoking `createOrder` with an empty
item list against the embedded order service issues one POST, not
zero — the gateway performs no validation before calling the backend. -/
theorem c3_counterexample :
    (executeCreateOrderMutation (worldWithOrderService "ORD-1" "t0")
        "u1" [] (.obj [])).2.length = 1
    ∧ (1 : Nat) ≠ 0 :=
  ⟨rfl, by decide⟩

/-- Claim C3 as amended: the gateway does not pre-validate the item
list — an empty-items `createOrder` issues exactly one POST to the
order service, whose pydantic validation (`min_items=1`) rejects the
body with status 422, so the mutation resolves to null and no order is
created. -/
theorem c3_amended_empty_items_rejected_by_backend
    (orderId currentTime userId : String) (addr : Json) :
    orderServicePost orderId currentTime (buildOrderPayload userId [] addr)
        = (422, Json.null)
    ∧ executeCreateOrderMutation (worldWithOrderService orderId currentTime)
          userId [] addr
        = (⟨none, []⟩, [Call.postOrder (buildOrderPayload userId [] addr)]) :=
  ⟨rfl, rfl⟩

/-- Counterexample to claim C6: the mutation has no payment-method
input — the payload the gateway forwards always carries
`payment_method = "card"`, differing from the spec-modelled payload for
any other payment method tag such as `"paypal"`. -/
theorem c6_counterexample :
    (buildOrderPayload "u1" [] (.obj [])).lookup? "payment_method"
        = some (.str "card")
    ∧ (specOrderPayload "u1" [] (.obj []) "paypal").lookup? "payment_method"
        = some (.str "paypal")
    ∧ Json.str "card" ≠ Json.str "paypal" :=
  ⟨rfl, rfl, by simp⟩

/-- Claim C6 as amended: the mutation accepts a user id, an items list
(raw JSON, not validated non-empty by the gateway) and a shipping
address — but no payment-method input — and forwards exactly one POST
to the order service whose body carries those inputs together with the
hardcoded payment method `"card"`. -/
theorem c6_amended_forwarded_payload (w : World) (userId : String)
    (items : List Json) (addr : Json) :
    (executeCreateOrderMutation w userId items addr).2
        = [Call.postOrder (buildOrderPayload userId items addr)]
    ∧ (buildOrderPayload userId items addr).lookup? "user_id"
        = some (.str userId)
    ∧ (buildOrderPayload userId items addr).lookup? "items"
        = some (.arr items)
    ∧ (buildOrderPayload userId items addr).lookup? "shipping_address"
        = some addr
    ∧ (buildOrderPayload userId items addr).lookup? "payment_method"
        = some (.str "card") := by
  refine ⟨?_, rfl, rfl, rfl, rfl⟩
  cases h : w.postOrder (buildOrderPayload userId items addr) <;>
    simp [executeCreateOrderMutation, resolveCreateOrder, h]

/-- Counterexample to claim C8, one closed fact per prong.
(1) `productPayloadNoStock` is missing the (per the claim, required)
`stock` key, yet the adapter silently produces a defaulted entity with
`stock = 0` instead of a field-resolution error.
(2) `productPayloadMismatch` carries type-mismatched values (numeric
`id`, string `price`, string `stock`), yet the adapter produces an
entity storing them raw, and the executed query returns it with an
empty errors list — no field-resolution error is surfaced.
(3) A payload missing required keys yields an absent product with an
empty errors list, not a field-resolution error. -/
theorem c8_counterexample :
    (productPayloadNoStock.lookup? "stock" = none
     ∧ productOfJson productPayloadNoStock = some productNoStockEntity
     ∧ productNoStockEntity.stock = Json.num 0)
    ∧ (productOfJson productPayloadMismatch = some productMismatchEntity
       ∧ productMismatchEntity.id = Json.num 7
       ∧ productMismatchEntity.price = Json.str "five"
       ∧ productMismatchEntity.stock = Json.str "many"
       ∧ (executeProductQuery worldMalformed "mismatch").1.data
           = some productMismatchEntity
       ∧ (executeProductQuery worldMalformed "mismatch").1.errors = [])
    ∧ (productOfJson (Json.obj [("name", Json.str "Widget")]) = none
       ∧ (executeProductQuery worldMalformed "p1").1.data = none
       ∧ (executeProductQuery worldMalformed "p1").1.errors = []
       ∧ (executeProductQuery worldMalformed "p1").1.errors.length ≠ 1) :=
  ⟨⟨rfl, rfl, rfl⟩, ⟨rfl, rfl, rfl, rfl, rfl, rfl⟩, ⟨rfl, rfl, rfl, by decide⟩⟩

/-- Claim C8 as amended: the adapter checks key presence and nothing
else.  Every stored field is the raw looked-up value — a type-mismatched
value is neither coerced nor surfaced as a field-resolution error, and a
missing `description` / `image_url` maps to an absent value while a
missing `stock` key is silently defaulted to 0 rather than erroring.  A
payload missing any of the other required keys (`id`, `name`, `price`,
`category`, `created_at`, `updated_at`) makes the adapter fail, and the
resolver then yields an absent product with NO error entry recorded —
the swallowed `KeyError` produces neither a coerced entity nor a
field-resolution error. -/
theorem c8_amended_adapter_totality :
    (∀ (j : Json) (p : GProduct), productOfJson j = some p →
      j.lookup? "id" = some p.id
      ∧ j.lookup? "name" = some p.name
      ∧ p.description = j.lookup? "description"
      ∧ j.lookup? "price" = some p.price
      ∧ j.lookup? "category" = some p.category
      ∧ p.stock = (j.lookup? "stock").getD (Json.num 0)
      ∧ p.imageUrl = j.lookup? "image_url"
      ∧ j.lookup? "created_at" = some p.createdAt
      ∧ j.lookup? "updated_at" = some p.updatedAt)
    ∧ (∀ j : Json,
        j.lookup? "id" = none ∨ j.lookup? "name" = none
          ∨ j.lookup? "price" = none ∨ j.lookup? "category" = none
          ∨ j.lookup? "created_at" = none ∨ j.lookup? "updated_at" = none →
        productOfJson j = none)
    ∧ (∀ (w : World) (id : String) (body : Json),
        w.catalog (.str id) = .ok 200 body → productOfJson body = none →
        (executeProductQuery w id).1.data = none
        ∧ (executeProductQuery w id).1.errors = []) := by
  refine ⟨?_, ?_, ?_⟩
  · intro j p h
    simp only [productOfJson, Option.bind_eq_bind, Option.bind_eq_some,
      Option.pure_def, Option.some.injEq] at h
    obtain ⟨idv, hid, nm, hnm, pr, hpr, cat, hcat, ca, hca, ua, hua, hp⟩ := h
    subst hp
    exact ⟨hid, hnm, rfl, hpr, hcat, rfl, rfl, hca, hua⟩
  · intro j h
    rcases h with h | h | h | h | h | h <;>
      cases h1 : j.lookup? "id" <;> cases h2 : j.lookup? "name" <;>
      cases h3 : j.lookup? "price" <;> cases h4 : j.lookup? "category" <;>
      cases h5 : j.lookup? "created_at" <;>
      simp_all [productOfJson]
  · intro w id body hw hb
    simp [executeProductQuery, resolveProduct, hw, hb]

/-- Closed instance of `c8_amended_adapter_totality`: the stock-less
payload gives a defaulted entity, raw values and absent optionals; a
payload with no `id` key gives no entity; the resolver turns a 200
response whose body is missing required keys into null data with an
empty errors list. -/
theorem c8_amended_adapter_totality_witness :
    (productOfJson productPayloadNoStock = some productNoStockEntity
     ∧ (productPayloadNoStock.lookup? "id" = some productNoStockEntity.id
        ∧ productPayloadNoStock.lookup? "name" = some productNoStockEntity.name
        ∧ productNoStockEntity.description
            = productPayloadNoStock.lookup? "description"
        ∧ productPayloadNoStock.lookup? "price"
            = some productNoStockEntity.price
        ∧ productPayloadNoStock.lookup? "category"
            = some productNoStockEntity.category
        ∧ productNoStockEntity.stock
            = (productPayloadNoStock.lookup? "stock").getD (Json.num 0)
        ∧ productNoStockEntity.imageUrl
            = productPayloadNoStock.lookup? "image_url"
        ∧ productPayloadNoStock.lookup? "created_at"
            = some productNoStockEntity.createdAt
        ∧ productPayloadNoStock.lookup? "updated_at"
            = some productNoStockEntity.updatedAt))
    ∧ (Json.null.lookup? "id" = none ∧ productOfJson Json.null = none)
    ∧ (worldMalformed.catalog (.str "p1")
          = .ok 200 (.obj [("name", Json.str "Widget")])
       ∧ productOfJson (Json.obj [("name", Json.str "Widget")]) = none
       ∧ (executeProductQuery worldMalformed "p1").1.data = none
       ∧ (executeProductQuery worldMalformed "p1").1.errors = []) := by
  have h3 := c8_amended_adapter_totality.2.2 worldMalformed "p1"
    (.obj [("name", Json.str "Widget")]) rfl rfl
  exact ⟨⟨rfl, c8_amended_adapter_totality.1 productPayloadNoStock
            productNoStockEntity rfl⟩,
         ⟨rfl, c8_amended_adapter_totality.2.1 Json.null (Or.inl rfl)⟩,
         ⟨rfl, rfl, h3.1, h3.2⟩⟩

/-- Claim C10: every list-valued resolver — `User.orders` (limit 100)
and `Query.user_orders` (limit 50) via `resolveUserOrders`, and
`Query.products` — returns the empty list on any backend transport
failure, non-200 status or malformed payload, and the executed response
records no error entry, so a backend outage is indistinguishable from a
genuinely empty result. -/
theorem c10_list_resolvers_empty_on_failure :
    (∀ (w : World) (userId : String) (limit : Nat),
      (w.ordersByUser userId limit = .failure
        ∨ ∃ s b, w.ordersByUser userId limit = .ok s b
            ∧ (s ≠ 200 ∨ parseOrdersPayload b = none)) →
      resolveUserOrders w userId limit
        = ([], [Call.getUserOrders userId limit]))
    ∧ (∀ (w : World) (userId : String),
        (w.ordersByUser userId 50 = .failure
          ∨ ∃ s b, w.ordersByUser userId 50 = .ok s b
              ∧ (s ≠ 200 ∨ parseOrdersPayload b = none)) →
        (executeUserOrdersQuery w userId).1.data = []
        ∧ (executeUserOrdersQuery w userId).1.errors = [])
    ∧ (∀ (w : World) (params : List (String × Json)),
        (w.catalogSearch params = .failure
          ∨ ∃ s b, w.catalogSearch params = .ok s b
              ∧ (s ≠ 200 ∨ parseProductsPayload b = none)) →
        (executeProductsQuery w params).1.data = []
        ∧ (executeProductsQuery w params).1.errors = []) := by
  have key : ∀ (w : World) (userId : String) (limit : Nat),
      (w.ordersByUser userId limit = .failure
        ∨ ∃ s b, w.ordersByUser userId limit = .ok s b
            ∧ (s ≠ 200 ∨ parseOrdersPayload b = none)) →
      resolveUserOrders w userId limit
        = ([], [Call.getUserOrders userId limit]) := by
    rintro w userId limit (hfail | ⟨s, b, hok, hs | hp⟩)
    · simp [resolveUserOrders, hfail]
    · simp [resolveUserOrders, hok, hs]
    · by_cases hs : s = 200
      · subst hs; simp [resolveUserOrders, hok, hp]
      · simp [resolveUserOrders, hok, hs]
  refine ⟨key, ?_, ?_⟩
  · intro w userId h
    have := key w userId 50 h
    simp [executeUserOrdersQuery, this]
  · rintro w params (hfail | ⟨s, b, hok, hs | hp⟩)
    · simp [executeProductsQuery, resolveProducts, hfail]
    · simp [executeProductsQuery, resolveProducts, hok, hs]
    · by_cases hs : s = 200
      · subst hs; simp [executeProductsQuery, resolveProducts, hok, hp]
      · simp [executeProductsQuery, resolveProducts, hok, hs]

/-- Closed instance of `c10_list_resolvers_empty_on_failure` with every
backend down. -/
theorem c10_list_resolvers_empty_on_failure_witness :
    (worldDown.ordersByUser "u1" 100 = .failure
     ∧ resolveUserOrders worldDown "u1" 100
         = ([], [Call.getUserOrders "u1" 100]))
    ∧ ((executeUserOrdersQuery worldDown "u1").1.data = []
       ∧ (executeUserOrdersQuery worldDown "u1").1.errors = [])
    ∧ ((executeProductsQuery worldDown
          (buildProductParams none none none none 20)).1.data = []
       ∧ (executeProductsQuery worldDown
            (buildProductParams none none none none 20)).1.errors = []) :=
  ⟨⟨rfl, c10_list_resolvers_empty_on_failure.1 worldDown "u1" 100 (Or.inl rfl)⟩,
   c10_list_resolvers_empty_on_failure.2.1 worldDown "u1" (Or.inl rfl),
   c10_list_resolvers_empty_on_failure.2.2 worldDown
     (buildProductParams none none none none 20) (Or.inl rfl)⟩
